import Mathlib

/-!
Shallow embedding of the graceful_shutdown repository (Go).

Source files embedded:
- `main.go`: the shutdown coordinator (`main`), the readiness flag
  (`isShuttingDown : atomic.Bool`), the readiness handler, and the three
  duration constants.
- `api.go`: `APIServer` with `InitiateShutdown`, `ShutdownResources`,
  `handleGetReadiness`, the `makeHTTPHandlerFunc` adapter, and `NewAPIServer`.
- the OTel provider file: `OTelProvider.Shutdown`.
- `error.go`: `APIError`.

Durations are modelled in whole seconds as `Nat`.  Cleanup callbacks are
modelled as a name plus the result (`none` = success, `some msg` = error)
that the Go closure would return; the aggregate of `errors.Join` is the
ordered list of the non-nil errors.  The coordinator's behaviour is
modelled as the list of observable events `main` performs after the first
termination signal, parameterised by the error value the drain
(`server.Shutdown`) returns.
-/

namespace GracefulShutdown

/-- Constant `_shutdownPeriod = 15 * time.Second` (main.go). -/
def shutdownPeriod : Nat := 15

/-- Constant `_shutdownHardPeriod = 3 * time.Second` (main.go). -/
def shutdownHardPeriod : Nat := 3

/-- Constant `_readinessDrainDelay = 5 * time.Second` (main.go). -/
def readinessDrainDelay : Nat := 5

/-- Modelled from the spec: the termination grace period granted by the host
environment is not part of the source; the spec measures the 23 s total
budget against a 30 s host budget. -/
def hostTerminationGracePeriod : Nat := 30

/-- An HTTP response as written by the handlers: status code and body. -/
structure HTTPResponse where
  status : Nat
  body : String
deriving DecidableEq

/-- Handler `readinessHandler` (main.go): 503 "shutting down" when the flag is set,
otherwise 200 "ok". -/
def readinessHandler (isShuttingDown : Bool) : HTTPResponse :=
  if isShuttingDown then { status := 503, body := "shutting down" }
  else { status := 200, body := "ok" }

/-- A cleanup callback `func(context.Context) error`, modelled by its
diagnostic name and the result it returns when invoked
(`none` = nil error). -/
structure CleanupCallback where
  name : String
  result : Option String
deriving DecidableEq

/-- Semantics of `errors.Join(err, e)`: a nil argument is dropped; the aggregate keeps
every non-nil error in order.  The aggregate is the list of collected
error messages (`[]` = nil error). -/
def joinErr (errs : List String) : Option String → List String
  | none => errs
  | some e => errs ++ [e]

/-- The loop body shared by `APIServer.ShutdownResources` and
`OTelProvider.Shutdown`:
`for _, fn := range shutdownFuncs { err = errors.Join(err, fn(ctx)) }`.
Returns the invocation log (names, in invocation order) and the joined
errors. -/
def shutdownLoop : List CleanupCallback → List String → List String →
    List String × List String
  | [], invoked, errs => (invoked, errs)
  | fn :: rest, invoked, errs =>
      shutdownLoop rest (invoked ++ [fn.name]) (joinErr errs fn.result)

/-- Provider `OTelProvider`: only the `shutdownFuncs` field matters for shutdown. -/
structure OTelProvider where
  shutdownFuncs : List CleanupCallback
deriving DecidableEq

/-- Method `OTelProvider.Shutdown`: runs every registered callback joining the
errors, then sets `p.shutdownFuncs = nil`.  Returns the updated provider,
the invocation log and the joined errors. -/
def OTelProvider.Shutdown (p : OTelProvider) :
    OTelProvider × List String × List String :=
  let r := shutdownLoop p.shutdownFuncs [] []
  ({ shutdownFuncs := [] }, r.1, r.2)

/-- Type `APIError` (error.go). -/
structure APIError where
  code : Nat
  message : String
deriving DecidableEq

/-- Type `APIServer` (api.go): the fields the shutdown claims depend on
(`Config`, `Logger` and the embedded `http.Server` are plumbing the
claims never read). -/
structure APIServer where
  isShuttingDown : Bool
  shutdownFuncs : List CleanupCallback
deriving DecidableEq

/-- Method `APIServer.InitiateShutdown`: `a.isShuttingDown.Store(true)`. -/
def APIServer.InitiateShutdown (a : APIServer) : APIServer :=
  { a with isShuttingDown := true }

/-- Method `APIServer.ShutdownResources`: runs every callback in
`a.shutdownFuncs` joining the errors; note it does NOT clear the list.
Returns the (unchanged) server, the invocation log, and the joined
errors. -/
def APIServer.ShutdownResources (a : APIServer) :
    APIServer × List String × List String :=
  let r := shutdownLoop a.shutdownFuncs [] []
  (a, r.1, r.2)

/-- An error escaping a handler, as seen by `makeHTTPHandlerFunc`:
either an `APIError` or any other error. -/
inductive HandlerError where
  | api (e : APIError)
  | other (msg : String)
deriving DecidableEq

/-- Adapter `makeHTTPHandlerFunc` (api.go): a successful handler already wrote its
response; an `APIError` is written with its own code; any other error
becomes a 500. -/
def makeHTTPHandlerFunc : Except HandlerError HTTPResponse → HTTPResponse
  | .ok resp => resp
  | .error (.api e) => { status := e.code, body := e.message }
  | .error (.other _) => { status := 500, body := "internal server error" }

/-- Method `APIServer.handleGetReadiness`: when the flag is not set, write
status 200 with the "ok" message; otherwise return
`APIError{503, "the server is shutting down"}`. -/
def APIServer.handleGetReadiness (a : APIServer) :
    Except HandlerError HTTPResponse :=
  if !a.isShuttingDown then .ok { status := 200, body := "ok" }
  else .error (.api { code := 503, message := "the server is shutting down" })

/-- Constructor `NewAPIServer` (api.go): builds a local `shutdownFuncs` list holding
the logger-sync callback and the OTel provider's `Shutdown`, then returns
an `APIServer` literal that omits the `shutdownFuncs` field, leaving the
field at its zero value (nil).  The parameters are the results the two
callbacks would return if ever invoked.  Returns the locally built list
together with the server actually returned. -/
def NewAPIServer (loggerSyncResult otelShutdownResult : Option String) :
    List CleanupCallback × APIServer :=
  let funcs : List CleanupCallback := []
  let funcs := funcs ++ [{ name := "shutdownLogger", result := loggerSyncResult }]
  let funcs := funcs ++ [{ name := "otelProvider.Shutdown", result := otelShutdownResult }]
  (funcs, { isShuttingDown := false, shutdownFuncs := [] })

/-- Operations on the `atomic.Bool` readiness flag: the program only ever
performs `Load` (readiness handler) and `Store(true)`
(`isShuttingDown.Store(true)` in main.go, `InitiateShutdown` in api.go). -/
inductive FlagOp where
  | load
  | storeTrue
deriving DecidableEq

/-- Effect of one flag operation on the flag value. -/
def flagStep (b : Bool) : FlagOp → Bool
  | .load => b
  | .storeTrue => true

/-- Flag value after a sequence of operations, starting from the zero
value `false` of `atomic.Bool`. -/
def runFlag (ops : List FlagOp) : Bool := ops.foldl flagStep false

/-- An observable action of `main` (main.go) after the first termination
signal. -/
inductive Event where
  /-- Call `stop()`: stop receiving any more signals. -/
  | stopSignals
  /-- Call `isShuttingDown.Store(true)`. -/
  | markShuttingDown
  /-- Call `time.Sleep` for the given number of seconds. -/
  | sleep (seconds : Nat)
  /-- Call `server.Shutdown(shutdownCtx)`: stop accepting new connections and
  drain in-flight ones, bounded by the given deadline in seconds. -/
  | stopAcceptingAndDrain (deadline : Nat)
  /-- Call `stopOngoingGracefully()`: cancel the ongoing-requests context. -/
  | cancelOngoing
  /-- Run the deferred `logger.Sync()` — the resource cleanup main performs. -/
  | resourceCleanup
  /-- Return from `main`: the process exits. -/
  | processExit
deriving DecidableEq

/-- Result of `server.Shutdown(ctx)` with deadline `deadline`, for an
in-flight workload needing `d` seconds to drain: nil when everything
completes before the deadline, `context.DeadlineExceeded` otherwise
(net/http semantics, as in spec section 4.4). -/
def drainResult (d deadline : Nat) : Option String :=
  if d < deadline then none else some "context deadline exceeded"

/-- The sequence of actions `main` performs once `rootCtx` is cancelled by
the first termination signal, given the error `drainErr` returned by
`server.Shutdown`: `stop()`; `isShuttingDown.Store(true)`;
`time.Sleep(_readinessDrainDelay)`; `server.Shutdown(shutdownCtx)` with
the `_shutdownPeriod` deadline; `stopOngoingGracefully()`;
`if err != nil { time.Sleep(_shutdownHardPeriod) }`; then the deferred
`logger.Sync()` and process exit. -/
def mainShutdownSequence (drainErr : Option String) : List Event :=
  [.stopSignals, .markShuttingDown, .sleep readinessDrainDelay,
   .stopAcceptingAndDrain shutdownPeriod, .cancelOngoing]
  ++ (if drainErr.isSome then [.sleep shutdownHardPeriod] else [])
  ++ [.resourceCleanup, .processExit]

/-- The aggregate result of the shutdown attempt: the drain error `main`
recorded in `err` after `server.Shutdown` returned. -/
structure ShutdownOutcome where
  drainErr : Option String
deriving DecidableEq

/-- Outcome of the shutdown attempt for a given drain result. -/
def mainOutcome (drainErr : Option String) : ShutdownOutcome :=
  { drainErr := drainErr }

/-- The coordinator run for an in-flight workload needing `d` seconds to
drain: the event trace together with the outcome. -/
def mainRun (d : Nat) : List Event × ShutdownOutcome :=
  (mainShutdownSequence (drainResult d shutdownPeriod),
   mainOutcome (drainResult d shutdownPeriod))

/-- Wall-clock seconds an event consumes, where the drain event takes
`min d deadline` seconds (the drain waits for the in-flight work but
never past its deadline). -/
def eventDuration (d : Nat) : Event → Nat
  | .sleep s => s
  | .stopAcceptingAndDrain deadline => min d deadline
  | _ => 0

/-- Total wall-clock seconds a trace consumes. -/
def traceElapsed (d : Nat) (t : List Event) : Nat :=
  (t.map (eventDuration d)).sum

/-- `a` and `b` both occur in the trace `t` and the first occurrence of
`a` is strictly before the first occurrence of `b`. -/
def occursBefore (t : List Event) (a b : Event) : Prop :=
  a ∈ t ∧ b ∈ t ∧ t.indexOf a < t.indexOf b

instance (t : List Event) (a b : Event) : Decidable (occursBefore t a b) := by
  unfold occursBefore
  infer_instance

/-! Helper lemmas shared by the claim theorems. -/

/-- Characterisation of the shutdown loop: every callback is invoked, in
list order, and the joined error collects exactly the non-nil results in
order. -/
theorem shutdownLoop_spec : ∀ (funcs : List CleanupCallback)
    (invoked errs : List String),
    shutdownLoop funcs invoked errs =
      (invoked ++ funcs.map CleanupCallback.name,
       errs ++ funcs.filterMap CleanupCallback.result)
  | [], invoked, errs => by simp [shutdownLoop]
  | fn :: rest, invoked, errs => by
    cases h : fn.result <;>
      simp [shutdownLoop, joinErr, h, shutdownLoop_spec rest, List.filterMap]

/-- Once the flag is `true`, no operation of the program resets it. -/
theorem flagStep_true (op : FlagOp) : flagStep true op = true := by
  cases op <;> rfl

/-- Folding any sequence of flag operations from `true` stays `true`. -/
theorem foldl_flagStep_true : ∀ ops : List FlagOp,
    List.foldl flagStep true ops = true
  | [] => rfl
  | op :: rest => by
    rw [List.foldl_cons, flagStep_true, foldl_flagStep_true rest]

/-- The trace when the drain returned no error, written out. -/
theorem mainShutdownSequence_none :
    mainShutdownSequence none =
      [.stopSignals, .markShuttingDown, .sleep readinessDrainDelay,
       .stopAcceptingAndDrain shutdownPeriod, .cancelOngoing,
       .resourceCleanup, .processExit] := rfl

/-- The trace when the drain returned an error, written out: the same
sequence with the hard-kill sleep inserted before cleanup. -/
theorem mainShutdownSequence_some (s : String) :
    mainShutdownSequence (some s) =
      [.stopSignals, .markShuttingDown, .sleep readinessDrainDelay,
       .stopAcceptingAndDrain shutdownPeriod, .cancelOngoing,
       .sleep shutdownHardPeriod, .resourceCleanup, .processExit] := rfl

/-! Claim theorems. -/

/-- C1: after the first termination signal the coordinator, for either
drain outcome, performs `stop()` before `isShuttingDown.Store(true)`,
then the `_readinessDrainDelay` sleep, then `server.Shutdown` with the
`_shutdownPeriod` deadline (stop accepting + drain), and resource cleanup
begins only after the flag was set and accepting stopped. -/
theorem claim_C1_coordinator_order (drainErr : Option String) :
    occursBefore (mainShutdownSequence drainErr)
      .stopSignals .markShuttingDown ∧
    occursBefore (mainShutdownSequence drainErr)
      .markShuttingDown (.sleep readinessDrainDelay) ∧
    occursBefore (mainShutdownSequence drainErr)
      (.sleep readinessDrainDelay) (.stopAcceptingAndDrain shutdownPeriod) ∧
    occursBefore (mainShutdownSequence drainErr)
      .markShuttingDown .resourceCleanup ∧
    occursBefore (mainShutdownSequence drainErr)
      (.stopAcceptingAndDrain shutdownPeriod) .resourceCleanup := by
  rcases drainErr with _ | s
  · rw [mainShutdownSequence_none]; decide
  · rw [mainShutdownSequence_some]; decide

/-- C2: whatever error the drain returned, the resource cleanup occurs in
the trace, after the stop-accepting-and-drain step and before process
exit — a drain timeout neither skips nor aborts cleanup. -/
theorem claim_C2_cleanup_always_runs (drainErr : Option String) :
    Event.resourceCleanup ∈ mainShutdownSequence drainErr ∧
    occursBefore (mainShutdownSequence drainErr)
      (.stopAcceptingAndDrain shutdownPeriod) .resourceCleanup ∧
    occursBefore (mainShutdownSequence drainErr)
      .resourceCleanup .processExit := by
  rcases drainErr with _ | s
  · rw [mainShutdownSequence_none]; decide
  · rw [mainShutdownSequence_some]; decide

/-- C3: when the in-flight work drains before the deadline the outcome
holds no drain error and the hard-kill sleep never occurs; when it
exceeds the deadline the outcome records the timeout error and the
hard-kill sleep of `_shutdownHardPeriod` seconds occurs before process
exit. -/
theorem claim_C3_drain_outcome (d : Nat) :
    (d < shutdownPeriod →
      (mainRun d).2.drainErr = none ∧
      Event.sleep shutdownHardPeriod ∉ (mainRun d).1) ∧
    (shutdownPeriod ≤ d →
      (mainRun d).2.drainErr = some "context deadline exceeded" ∧
      occursBefore (mainRun d).1 (.sleep shutdownHardPeriod) .processExit) := by
  constructor
  · intro h
    have hd : drainResult d shutdownPeriod = none := by
      simp [drainResult, h]
    simp only [mainRun, hd, mainOutcome, mainShutdownSequence_none]
    exact ⟨trivial, by decide⟩
  · intro h
    have hd : drainResult d shutdownPeriod = some "context deadline exceeded" := by
      simp [drainResult, Nat.not_lt.mpr h]
    simp only [mainRun, hd, mainOutcome, mainShutdownSequence_some]
    exact ⟨trivial, by decide⟩

/-- Witness for C3 at the concrete drain durations 3 s (finishes early)
and 20 s (exceeds the 15 s deadline). -/
theorem claim_C3_drain_outcome_witness :
    ((mainRun 3).2.drainErr = none ∧
      Event.sleep shutdownHardPeriod ∉ (mainRun 3).1) ∧
    ((mainRun 20).2.drainErr = some "context deadline exceeded" ∧
      occursBefore (mainRun 20).1 (.sleep shutdownHardPeriod) .processExit) :=
  ⟨(claim_C3_drain_outcome 3).1 (by decide),
   (claim_C3_drain_outcome 20).2 (by decide)⟩

/-- C4: for a registered list `[A, B, C]` where only `B` fails, both
`APIServer.ShutdownResources` and `OTelProvider.Shutdown` invoke `A`,
`B`, `C` each exactly once, in registration order, without
short-circuiting, and the aggregate error mentions `B`'s failure only. -/
theorem claim_C4_registry_runs_all_in_order
    (a b c : CleanupCallback) (e : String)
    (s : APIServer) (p : OTelProvider)
    (ha : a.result = none) (hb : b.result = some e) (hc : c.result = none)
    (hs : s.shutdownFuncs = [a, b, c]) (hp : p.shutdownFuncs = [a, b, c]) :
    (s.ShutdownResources).2.1 = [a.name, b.name, c.name] ∧
    (s.ShutdownResources).2.2 = [e] ∧
    (p.Shutdown).2.1 = [a.name, b.name, c.name] ∧
    (p.Shutdown).2.2 = [e] := by
  simp [APIServer.ShutdownResources, OTelProvider.Shutdown, hs, hp,
    shutdownLoop, joinErr, ha, hb, hc]

/-- Witness for C4 with the concrete callbacks `A` (ok), `B` (fails with
"B failed"), `C` (ok). -/
theorem claim_C4_registry_witness :
    (APIServer.ShutdownResources
        { isShuttingDown := false,
          shutdownFuncs := [{ name := "A", result := none },
                            { name := "B", result := some "B failed" },
                            { name := "C", result := none }] }).2.1
      = ["A", "B", "C"] ∧
    (APIServer.ShutdownResources
        { isShuttingDown := false,
          shutdownFuncs := [{ name := "A", result := none },
                            { name := "B", result := some "B failed" },
                            { name := "C", result := none }] }).2.2
      = ["B failed"] ∧
    (OTelProvider.Shutdown
        { shutdownFuncs := [{ name := "A", result := none },
                            { name := "B", result := some "B failed" },
                            { name := "C", result := none }] }).2.1
      = ["A", "B", "C"] ∧
    (OTelProvider.Shutdown
        { shutdownFuncs := [{ name := "A", result := none },
                            { name := "B", result := some "B failed" },
                            { name := "C", result := none }] }).2.2
      = ["B failed"] :=
  claim_C4_registry_runs_all_in_order
    { name := "A", result := none }
    { name := "B", result := some "B failed" }
    { name := "C", result := none }
    "B failed" _ _ rfl rfl rfl rfl rfl

/-- C5 counterexample: `APIServer.ShutdownResources` does not clear the
callback list, so on the server it returns the second call re-invokes the
callback "A" and returns its error again — the claim that the second
call invokes no callback and returns no error is false for the concrete
registered list `[A]` with `A` failing. -/
theorem claim_C5_counterexample :
    ((APIServer.ShutdownResources
        { isShuttingDown := false,
          shutdownFuncs := [{ name := "A", result := some "A failed" }] }).1
      ).shutdownFuncs = [{ name := "A", result := some "A failed" }] ∧
    (APIServer.ShutdownResources
      (APIServer.ShutdownResources
        { isShuttingDown := false,
          shutdownFuncs := [{ name := "A", result := some "A failed" }] }).1
      ).2.1 = ["A"] ∧
    (APIServer.ShutdownResources
      (APIServer.ShutdownResources
        { isShuttingDown := false,
          shutdownFuncs := [{ name := "A", result := some "A failed" }] }).1
      ).2.2 = ["A failed"] := by
  decide

/-- C5 amended: idempotence holds for `OTelProvider.Shutdown`, which sets
its callback list to nil after the first run, so a second call invokes no
callback and returns no error; `APIServer.ShutdownResources` leaves its
list untouched and re-runs the callbacks when called again. -/
theorem claim_C5_otel_shutdown_idempotent (p : OTelProvider) :
    ((p.Shutdown).1).shutdownFuncs = [] ∧
    ((p.Shutdown).1).Shutdown = ({ shutdownFuncs := [] }, [], []) :=
  ⟨rfl, rfl⟩

/-- C6: the readiness flag starts at the `atomic.Bool` zero value
`false`; the only mutating operation in the program stores `true`; no
operation resets a `true` flag; after any operation sequence that made
the flag `true`, every extension still observes `true`; and
`InitiateShutdown` sets the server flag to `true`. -/
theorem claim_C6_flag_monotone :
    runFlag [] = false ∧
    (∀ b : Bool, flagStep b .storeTrue = true) ∧
    (∀ (b : Bool) (op : FlagOp), b = true → flagStep b op = true) ∧
    (∀ ops more : List FlagOp, runFlag ops = true →
      runFlag (ops ++ more) = true) ∧
    (∀ a : APIServer, (a.InitiateShutdown).isShuttingDown = true) := by
  refine ⟨rfl, fun b => rfl, fun b op hb => ?_, fun ops more h => ?_, fun a => rfl⟩
  · subst hb; exact flagStep_true op
  · unfold runFlag at h ⊢
    rw [List.foldl_append, h]
    exact foldl_flagStep_true more

/-- Witness for C6: a single-step true flag stays true under a load, and
the run `[storeTrue] ++ [load]` still reads `true`. -/
theorem claim_C6_flag_monotone_witness :
    flagStep true .load = true ∧
    runFlag ([.storeTrue] ++ [.load]) = true :=
  ⟨claim_C6_flag_monotone.2.2.1 true .load rfl,
   claim_C6_flag_monotone.2.2.2.1 [.storeTrue] [.load] rfl⟩

/-- C7: both health handlers answer from the readiness flag alone —
`readinessHandler` (main.go) returns 200 "ok" when the flag is `false`
and 503 "shutting down" when it is `true`; the api.go GET readiness
handler, through `makeHTTPHandlerFunc`, returns 200 "ok" when the flag is
`false` and 503 "the server is shutting down" when it is `true`,
whatever the rest of the server state is. -/
theorem claim_C7_readiness_solely_flag (flag : Bool) (a : APIServer) :
    readinessHandler flag =
      (if flag then { status := 503, body := "shutting down" }
       else { status := 200, body := "ok" }) ∧
    makeHTTPHandlerFunc a.handleGetReadiness =
      (if a.isShuttingDown
       then { status := 503, body := "the server is shutting down" }
       else { status := 200, body := "ok" }) := by
  constructor
  · cases flag <;> rfl
  · cases ha : a.isShuttingDown <;>
      simp [makeHTTPHandlerFunc, APIServer.handleGetReadiness, ha]

/-- C8 counterexample: in the coordinator's trace the ongoing-requests
context is NOT cancelled at the start of the drain phase —
`stopOngoingGracefully()` does not occur before `server.Shutdown`; it
occurs after it. -/
theorem claim_C8_counterexample :
    ¬ occursBefore (mainShutdownSequence none)
        .cancelOngoing (.stopAcceptingAndDrain shutdownPeriod) ∧
    occursBefore (mainShutdownSequence none)
      (.stopAcceptingAndDrain shutdownPeriod) .cancelOngoing := by
  rw [mainShutdownSequence_none]; decide

/-- C8 amended: the coordinator cancels the ongoing-requests context
immediately after the drain returns (at the end of the drain phase),
before process exit, and — when the drain timed out — before the
hard-kill sleep, so handlers still running after a drain timeout can
observe the cancellation and exit early. -/
theorem claim_C8_cancel_after_drain :
    (∀ drainErr : Option String,
      occursBefore (mainShutdownSequence drainErr)
        (.stopAcceptingAndDrain shutdownPeriod) .cancelOngoing ∧
      occursBefore (mainShutdownSequence drainErr)
        .cancelOngoing .processExit) ∧
    occursBefore (mainShutdownSequence (some "context deadline exceeded"))
      .cancelOngoing (.sleep shutdownHardPeriod) := by
  refine ⟨fun drainErr => ?_, by rw [mainShutdownSequence_some]; decide⟩
  rcases drainErr with _ | s
  · rw [mainShutdownSequence_none]; decide
  · rw [mainShutdownSequence_some]; decide

/-- C9: for every drain duration and drain result, the wall-clock time of
the coordinator trace is at most
`readinessDrainDelay + shutdownPeriod + shutdownHardPeriod`; that sum is
23 s, at most the 30 s host termination grace period, with at least 20 %
(hence 15–20 %) of the host budget left as margin; and the hard-kill
sleep is spent after the drain step, not inside its deadline. -/
theorem claim_C9_budget_additive (d : Nat) (drainErr : Option String) :
    traceElapsed d (mainShutdownSequence drainErr) ≤
      readinessDrainDelay + shutdownPeriod + shutdownHardPeriod ∧
    readinessDrainDelay + shutdownPeriod + shutdownHardPeriod = 23 ∧
    readinessDrainDelay + shutdownPeriod + shutdownHardPeriod ≤
      hostTerminationGracePeriod ∧
    20 * hostTerminationGracePeriod ≤
      100 * (hostTerminationGracePeriod -
        (readinessDrainDelay + shutdownPeriod + shutdownHardPeriod)) ∧
    occursBefore (mainShutdownSequence (some "context deadline exceeded"))
      (.stopAcceptingAndDrain shutdownPeriod) (.sleep shutdownHardPeriod) := by
  refine ⟨?_, by decide, by decide, by decide,
    by rw [mainShutdownSequence_some]; decide⟩
  have hmin : min d shutdownPeriod ≤ shutdownPeriod := Nat.min_le_right d _
  rcases drainErr with _ | s
  · rw [mainShutdownSequence_none]
    simp only [traceElapsed, List.map, eventDuration, List.sum_cons,
      List.sum_nil]
    omega
  · rw [mainShutdownSequence_some]
    simp only [traceElapsed, List.map, eventDuration, List.sum_cons,
      List.sum_nil]
    omega

/-- C10: `NewAPIServer` registers the logger-sync and OTel-shutdown
callbacks in a local list but returns a server whose `shutdownFuncs`
field is empty (the struct literal omits the field), so
`ShutdownResources` on the returned server invokes no callback and
returns no error, whatever the two callbacks would have returned. -/
theorem claim_C10_registered_list_discarded
    (loggerSyncResult otelShutdownResult : Option String) :
    (NewAPIServer loggerSyncResult otelShutdownResult).1 =
      [{ name := "shutdownLogger", result := loggerSyncResult },
       { name := "otelProvider.Shutdown", result := otelShutdownResult }] ∧
    ((NewAPIServer loggerSyncResult otelShutdownResult).2).shutdownFuncs = [] ∧
    (((NewAPIServer loggerSyncResult otelShutdownResult).2
      ).ShutdownResources).2.1 = [] ∧
    (((NewAPIServer loggerSyncResult otelShutdownResult).2
      ).ShutdownResources).2.2 = [] :=
  ⟨rfl, rfl, rfl, rfl⟩

end GracefulShutdown
